import Mathlib

/-!
Verification of the Kaspa wallet-tracker bot (src/k1.py) against its
natural-language specification.

The embedding is shallow:
* the SQLite `wallets` table is a list of (user_id, wallet_address) rows
  in insertion order;
* the process-wide dictionaries `last_transactions` and
  `last_transaction_counts` are maps `String → Option _`;
* HTTP responses are passed to each function as `Option`-valued
  parameters (`none` models a non-2xx / transport failure, the spec's
  `Unavailable`);
* Python strings are Lean `String`s; `balance / 1_0000_0000` is exact
  binary64 (IEEE-754 double) division and `f"{x:.8f}"` is CPython's
  correctly-rounded fixed-point rendering of the resulting double, both
  embedded in integer arithmetic via round-half-even (`rheN`, `scaled8`
  below);
* the timezone rendering of `block_time` (pytz) and the float USD
  rendering `f"{float(amount)*price:.2f}"` are abstracted as function
  parameters `ft : Nat → String` and `usd : String → String`, since the
  claims never constrain their output.
-/

namespace K1

/-- A ledger transaction as used by `k1.py`: `transaction_id`,
`outputs` (their `amount` fields, smallest unit) and `block_time`
(epoch millis). -/
structure Transaction where
  transaction_id : String
  outputs : List Nat
  block_time : Nat
deriving DecidableEq, Repr

/-- The character for a decimal digit `d < 10`. -/
def digitChar (d : Nat) : Char :=
  Char.ofNat (48 + d)

/-- The `k` low decimal digits of `n`, most significant first:
the exact digits produced by a zero-padded fixed-width decimal
rendering of `n % 10^k`. -/
def padDigits : Nat → Nat → List Char
  | 0, _ => []
  | k + 1, n => padDigits k (n / 10) ++ [digitChar (n % 10)]

/-- Round-half-even of the fraction `a / b` (for `b > 0`): the IEEE-754
default rounding, used both by binary64 division and by CPython's
correctly-rounded float-to-decimal formatting. -/
def rheN (a b : Nat) : Nat :=
  if 2 * (a % b) < b then a / b
  else if b < 2 * (a % b) then a / b + 1
  else if a / b % 2 = 0 then a / b else a / b + 1

/-- `⌊log2⌋` with explicit structural fuel, so that concrete instances
evaluate inside the kernel. -/
def log2fuel : Nat → Nat → Nat
  | 0, _ => 0
  | f + 1, n => if n ≤ 1 then 0 else log2fuel f (n / 2) + 1

/-- `⌊log2 n⌋` for `1 ≤ n < 2^1200`, which covers every value this
development feeds it (the scaled quotients of all finite doubles). -/
def floorLog2 (n : Nat) : Nat := log2fuel 1200 n

/-- The float pipeline of `format_balance` (src/k1.py line 228),
scaled by `10^8`: Python's `balance / 1_0000_0000` is exact binary64
division — the rational `q = n/10^8` rounded half-even to 53
significant bits — and `:.8f` renders that double rounded half-even to
8 fractional digits.  `⌊log2 q⌋ = ⌊log2 ⌊q·2^27⌋⌋ - 27 = L - 27` with
`L` as below (valid since `q·2^27 ≥ 1` for `n ≥ 1`), so the double's
ulp is `2^(L-27-52) = 2^(L-79)`: for `L ≤ 79` the double is
`rheN (n·2^(79-L)) 10^8 / 2^(79-L)` and for `L > 79` it is
`rheN n (2^(L-79)·10^8) · 2^(L-79)`.  This function is that double
times `10^8`, rounded half-even to an integer — the integer whose
digits `:.8f` prints.  (For `n ≥ 1` the quotient `q ≥ 10^-8` is far
above the subnormal range; overflow to infinity, at `n ≳ 1.8·10^316`,
is beyond every value considered here.) -/
def scaled8 (n : Nat) : Nat :=
  if n = 0 then 0
  else if floorLog2 (n * 134217728 / 100000000) ≤ 79 then
    rheN (rheN (n * 2 ^ (79 - floorLog2 (n * 134217728 / 100000000)))
        100000000 * 100000000)
      (2 ^ (79 - floorLog2 (n * 134217728 / 100000000)))
  else
    rheN n (2 ^ (floorLog2 (n * 134217728 / 100000000) - 79) * 100000000)
      * 2 ^ (floorLog2 (n * 134217728 / 100000000) - 79) * 100000000

/-- `f"{balance / 1_0000_0000:.8f}"` from `format_balance`
(src/k1.py line 228): the integer part, a dot, and exactly 8 fractional
digits of the value the float pipeline renders (`scaled8`). -/
def render8 (balance : Nat) : List Char :=
  (Nat.repr (scaled8 balance / 100000000)).data
    ++ Char.ofNat 46 :: padDigits 8 (scaled8 balance % 100000000)

/-- `format_balance` (src/k1.py lines 226-230): format with 8 fractional
digits, then drop the last 2 characters (`balance_with_decimal[:-2]`). -/
def format_balance (balance : Nat) : String :=
  String.mk (List.dropLast (List.dropLast (render8 balance)))

/-- What the spec asks of balance formatting: the value truncated (not
rounded) to 6 decimal digits. -/
def truncate6 (balance : Nat) : String :=
  String.mk ((Nat.repr (balance / 100000000)).data
    ++ Char.ofNat 46 :: padDigits 6 (balance % 100000000 / 100))

/-- Update a string-keyed map at one key (Python dict assignment). -/
def updateMap {α : Type} (m : String → Option α) (k : String) (v : α) :
    String → Option α :=
  fun a => if a = k then some v else m a

/-- The two process-wide dictionaries of src/k1.py lines 58-59:
`last_transactions` and `last_transaction_counts`, keyed by wallet
address.  A key absent from the Python dict maps to `none`. -/
structure BotState where
  last_transactions : String → Option (List Transaction)
  last_transaction_counts : String → Option Nat

/-- `get_transaction_count` (src/k1.py lines 240-247): on a 2xx
response carrying total `n` it returns `n`; on any failure it logs and
returns `0`.  The response is the parameter: `none` is `Unavailable`. -/
def get_transaction_count (resp : Option Nat) : Nat :=
  match resp with
  | some n => n
  | none => 0

/-- `get_wallet_transactions` (src/k1.py lines 232-238): the response
body on 2xx, `[]` on any failure (`none` is `Unavailable`). -/
def get_wallet_transactions (resp : Option (List Transaction)) :
    List Transaction :=
  match resp with
  | some txs => txs
  | none => []

/-- The result of the spec's ChangeDetector. -/
inductive DetectResult where
  | unchanged : DetectResult
  | changed (previous current : Nat) : DetectResult
deriving DecidableEq, Repr

/-- The change-detection policy of src/k1.py line 279: `Changed` exactly
when the address has a stored baseline and the current count differs
from it; otherwise (equal count, or no baseline) `Unchanged`. -/
def detect (st : BotState) (wallet_address : String) (current : Nat) :
    DetectResult :=
  match st.last_transaction_counts wallet_address with
  | some prev => if current = prev then .unchanged else .changed prev current
  | none => .unchanged

/-- One rendered transaction of `format_transactions`
(src/k1.py lines 252-264), at display index `i` (printed as `i+1`).
`ft` renders `block_time` (the pytz timezone conversion, or the
`"Invalid timestamp"` fallback); `usd` renders
`f"{float(amount)*price:.2f}"` from the amount string. -/
def renderTx (ft : Nat → String) (usd : String → String) (i : Nat)
    (tx : Transaction) : String :=
  Nat.repr (i + 1) ++ ". Transaction ID: " ++ tx.transaction_id
    ++ "\n   Amount: " ++ format_balance tx.outputs.sum
    ++ " KAS (~$" ++ usd (format_balance tx.outputs.sum)
    ++ ")\n   Time: " ++ ft tx.block_time ++ "\n\n"

/-- The enumeration loop of `format_transactions`, starting at index
`i`. -/
def format_transactions_from (ft : Nat → String) (usd : String → String) :
    Nat → List Transaction → String
  | _, [] => ""
  | i, tx :: rest =>
      renderTx ft usd i tx ++ format_transactions_from ft usd (i + 1) rest

/-- `format_transactions` (src/k1.py lines 249-265). -/
def format_transactions (ft : Nat → String) (usd : String → String)
    (txs : List Transaction) : String :=
  format_transactions_from ft usd 0 txs

/-- `check_transactions` (src/k1.py lines 267-293), one tick of a
polling job.  Inputs: the job's `chat_id` and `wallet_address`, the two
HTTP responses of this tick (`countResp` for `transactions-count`,
`txResp` for `full-transactions`; `none` is `Unavailable`), and the
process state.  Output: the new process state and the list of
`(chat_id, text)` messages sent by `context.bot.send_message`.
The Python locals are inlined: `current` is
`get_transaction_count countResp`, `current_transactions` is
`get_wallet_transactions txResp`, and `new_transactions` is its `[:1]`
slice (`take 1`); line 279's membership-and-inequality test is the
`detect` scrutinee. -/
def check_transactions (ft : Nat → String) (usd : String → String)
    (chat_id : Nat) (wallet_address : String) (countResp : Option Nat)
    (txResp : Option (List Transaction)) (st : BotState) :
    BotState × List (Nat × String) :=
  match detect st wallet_address (get_transaction_count countResp) with
  | .changed _ _ =>
      match (get_wallet_transactions txResp).take 1 with
      | tx :: rest =>
          (⟨updateMap st.last_transactions wallet_address
              (get_wallet_transactions txResp),
            updateMap st.last_transaction_counts wallet_address
              (get_transaction_count countResp)⟩,
           [(chat_id, "New transaction detected:\n"
              ++ format_transactions ft usd (tx :: rest))])
      | [] =>
          (⟨st.last_transactions,
            updateMap st.last_transaction_counts wallet_address
              (get_transaction_count countResp)⟩,
           [])
  | .unchanged =>
      (⟨st.last_transactions,
        updateMap st.last_transaction_counts wallet_address
          (get_transaction_count countResp)⟩,
       [])

/-- The SQLite `wallets` table: `(user_id, wallet_address)` rows in
insertion (rowid) order.  `id INTEGER PRIMARY KEY` is the row position;
no UNIQUE constraint exists on `(user_id, wallet_address)`. -/
abbrev DB := List (Nat × String)

/-- Result of the `add` operation of the SubscriptionStore. -/
inductive AddResult where
  | added : AddResult
  | alreadyExists : AddResult
deriving DecidableEq, Repr

/-- The database part of `track_wallet` (src/k1.py lines 88-103):
SELECT the `(user_id, wallet_address)` pair; if a row exists, reply
"already tracking" and stop; otherwise INSERT the row. -/
def add (db : DB) (user_id : Nat) (wallet_address : String) :
    AddResult × DB :=
  if (user_id, wallet_address) ∈ db then (.alreadyExists, db)
  else (.added, db ++ [(user_id, wallet_address)])

/-- The SELECT of `list_wallets` (src/k1.py line 171): the wallet
addresses of the user's rows, in stored order. -/
def list_wallets (db : DB) (user_id : Nat) : List String :=
  (db.filter (fun r => r.1 = user_id)).map (fun r => r.2)

/-- The DELETE of `delete_wallet` (src/k1.py line 138): remove every
row matching the pair. -/
def delete_wallet (db : DB) (user_id : Nat) (wallet_address : String) :
    DB :=
  db.filter (fun r => !(r.1 = user_id && r.2 = wallet_address))

/-- The UPDATE of `edit_wallet` (src/k1.py line 158): rewrite
`wallet_address` to the new address on every row of this user holding
the old address; no conflict check of any kind, and the bot then
unconditionally replies "Updated wallet from ... to ...". -/
def edit_wallet (db : DB) (user_id : Nat) (old_wallet_address
    new_wallet_address : String) : DB :=
  db.map (fun r =>
    if r.1 = user_id && r.2 = old_wallet_address then
      (user_id, new_wallet_address)
    else r)

/-- Scheduler-level state: the wallets table and the list of repeating
jobs created by `job_queue.run_repeating` (src/k1.py line 121), each
holding the single `(chat_id, wallet_address)` stored in its `data`
dict.  Jobs are never cancelled anywhere in the source. -/
structure SchedState where
  db : DB
  jobs : List (Nat × String)

/-- `track_wallet` (src/k1.py lines 79-125) at the scheduler level:
if the `(user_id, wallet_address)` pair is already in the table the
handler returns early; otherwise it inserts the row and unconditionally
schedules a fresh repeating `check_transactions` job carrying this
message's `chat_id` and the wallet address. -/
def track_wallet (st : SchedState) (user_id chat_id : Nat)
    (wallet_address : String) : SchedState :=
  if (user_id, wallet_address) ∈ st.db then st
  else
    ⟨st.db ++ [(user_id, wallet_address)],
     st.jobs ++ [(chat_id, wallet_address)]⟩

/-- The jobs polling a given wallet address. -/
def jobsFor (st : SchedState) (wallet_address : String) :
    List (Nat × String) :=
  st.jobs.filter (fun j => j.2 = wallet_address)

/-- A concrete time renderer, for concrete evaluations. -/
def ft0 : Nat → String := fun _ => "2024-01-01 00:00:00"

/-- A concrete USD renderer, for concrete evaluations. -/
def usd0 : String → String := fun _ => "0.00"

/-- A concrete process state: baseline count 5 stored for
`kaspa:abc`, no stored transaction list. -/
def st0 : BotState :=
  ⟨fun _ => none, fun a => if a = "kaspa:abc" then some 5 else none⟩

/-- A concrete transaction. -/
def tx1 : Transaction := ⟨"tx1", [150000000], 1700000000000⟩

/-- The empty scheduler state (fresh database, no jobs). -/
def initSched : SchedState := ⟨[], []⟩

/-- A process state with no stored baseline for any wallet (the
in-memory dicts right after a restart). -/
def stEmpty : BotState := ⟨fun _ => none, fun _ => none⟩

/-- The whole process state: the persistent wallets table, the job
queue, and the in-memory observation dicts. -/
structure FullState where
  db : DB
  jobs : List (Nat × String)
  bot : BotState

/-- One tick of a job at the whole-process level: `check_transactions`
touches only the two in-memory dicts and sends messages; it never
reads or writes the wallets table or the job queue. -/
def tick (ft : Nat → String) (usd : String → String) (chat_id : Nat)
    (wallet_address : String) (countResp : Option Nat)
    (txResp : Option (List Transaction)) (st : FullState) :
    FullState × List (Nat × String) :=
  let r := check_transactions ft usd chat_id wallet_address countResp
    txResp st.bot
  (⟨st.db, st.jobs, r.1⟩, r.2)

theorem dropLast_dropLast_append_pair (l : List Char) (a b : Char) :
    ((l ++ [a, b]).dropLast).dropLast = l := by
  have h1 : l ++ [a, b] = (l ++ [a]) ++ [b] := by simp
  rw [h1, List.dropLast_concat, List.dropLast_concat]

theorem padDigits_split (k n : Nat) :
    padDigits (k + 2) n
      = padDigits k (n / 100)
        ++ [digitChar (n / 10 % 10), digitChar (n % 10)] := by
  show padDigits (k + 1) (n / 10) ++ [digitChar (n % 10)] = _
  show (padDigits k (n / 10 / 10) ++ [digitChar (n / 10 % 10)])
        ++ [digitChar (n % 10)] = _
  rw [Nat.div_div_eq_div_mul]
  simp

theorem updateMap_same {α : Type} (m : String → Option α) (k : String)
    (v : α) : updateMap m k v k = some v := by
  simp [updateMap]

theorem updateMap_other {α : Type} (m : String → Option α) (k : String)
    (v : α) (a : String) (h : a ≠ k) : updateMap m k v a = m a := by
  simp [updateMap, h]

theorem counts_after_tick (ft : Nat → String) (usd : String → String)
    (chat_id : Nat) (wallet_address : String) (countResp : Option Nat)
    (txResp : Option (List Transaction)) (st : BotState) :
    ((check_transactions ft usd chat_id wallet_address countResp txResp
        st).1).last_transaction_counts wallet_address
      = some (get_transaction_count countResp) := by
  unfold check_transactions
  cases hd : detect st wallet_address (get_transaction_count countResp) with
  | unchanged => simp [hd, updateMap]
  | changed p c =>
      cases htake : (get_wallet_transactions txResp).take 1 with
      | nil => simp [hd, htake, updateMap]
      | cons t r => simp [hd, htake, updateMap]

theorem log2fuel_le (f : Nat) :
    ∀ n k : Nat, n < 2 ^ (k + 1) → log2fuel f n ≤ k := by
  induction f with
  | zero => intro n k _; simp [log2fuel]
  | succ f ih =>
      intro n k h
      unfold log2fuel
      by_cases hn : n ≤ 1
      · simp [hn]
      · simp [hn]
        have hk : 1 ≤ k := by
          by_contra hk0
          have hk1 : k = 0 := by omega
          subst hk1
          simp at h
          omega
        obtain ⟨k', rfl⟩ : ∃ k', k = k' + 1 := ⟨k - 1, by omega⟩
        have hdiv : n / 2 < 2 ^ (k' + 1) := by
          have h2 : n < 2 ^ (k' + 1) * 2 := by
            rw [show 2 ^ (k' + 1) * 2 = 2 ^ (k' + 1 + 1) from by ring]
            exact h
          omega
        have := ih (n / 2) k' hdiv
        omega

theorem rheN_close (a b : Nat) (hb : 0 < b) :
    2 * (rheN a b * b) ≤ 2 * a + b ∧ 2 * a ≤ 2 * (rheN a b * b) + b := by
  have hdm : b * (a / b) + a % b = a := Nat.div_add_mod a b
  have hr : a % b < b := Nat.mod_lt a hb
  unfold rheN
  split_ifs with hc1 hc2 hc3 <;>
    rw [Nat.mul_comm _ b] <;>
    [skip; rw [Nat.mul_add b (a / b) 1, Nat.mul_one]; skip;
     rw [Nat.mul_add b (a / b) 1, Nat.mul_one]] <;>
    · generalize hX : b * (a / b) = X at hdm ⊢
      generalize hR : a % b = r at hdm hr hc1 ⊢
      omega

theorem rheN_eq_of_close (x b n : Nat) (hb : 0 < b)
    (h1 : 2 * x < 2 * (n * b) + b) (h2 : 2 * (n * b) < 2 * x + b) :
    rheN x b = n := by
  have hdm : b * (x / b) + x % b = x := Nat.div_add_mod x b
  have hrb : x % b < b := Nat.mod_lt x hb
  have hq_le : x / b ≤ n := by
    have hx : x < (n + 1) * b := by
      rw [show (n + 1) * b = n * b + b from by ring]
      generalize hP : n * b = P at h1 ⊢
      omega
    have := (Nat.div_lt_iff_lt_mul hb).mpr hx
    omega
  have hn_le : n ≤ x / b + 1 := by
    by_contra hcon
    have h3 : x / b + 2 ≤ n := by omega
    have h4 : (x / b + 2) * b ≤ n * b := Nat.mul_le_mul_right b h3
    rw [show (x / b + 2) * b = b * (x / b) + 2 * b from by ring] at h4
    generalize hP : n * b = P at h2 h4
    generalize hX : b * (x / b) = X at hdm h4
    generalize hR : x % b = r at hdm hrb
    omega
  rcases Nat.lt_or_ge (x / b) n with hlt | hge
  · have hq : x / b + 1 = n := by omega
    have hnb : n * b = b * (x / b) + b := by rw [← hq]; ring
    have hgt : b < 2 * (x % b) := by
      rw [hnb] at h2
      generalize hX : b * (x / b) = X at hdm h2
      generalize hR : x % b = r at hdm hrb ⊢
      omega
    unfold rheN
    rw [if_neg (by omega), if_pos hgt, hq]
  · have hq : x / b = n := by omega
    have hlt2 : 2 * (x % b) < b := by
      have hnb : n * b = b * (x / b) := by rw [hq, Nat.mul_comm]
      rw [hnb] at h1
      generalize hX : b * (x / b) = X at hdm h1
      generalize hR : x % b = r at hdm hrb ⊢
      omega
    unfold rheN
    rw [if_pos hlt2, hq]

/-- Below `2^26 · 10^8` smallest units the double `n/10^8` carries its
ulp strictly below `10^-8/2` relative to the 8-digit grid, so division
followed by `:.8f` rendering reproduces `n` exactly. -/
theorem scaled8_eq_of_small (n : Nat) (h : n < 6710886400000000) :
    scaled8 n = n := by
  rcases Nat.eq_zero_or_pos n with h0 | hpos
  · subst h0; rfl
  · have hm : n * 134217728 / 100000000 < 2 ^ 53 := by
      apply (Nat.div_lt_iff_lt_mul (by norm_num)).mpr
      calc n * 134217728
            < 6710886400000000 * 134217728 :=
              (Nat.mul_lt_mul_right
                (by norm_num : (0 : Nat) < 134217728)).mpr h
        _ = 2 ^ 53 * 100000000 := by norm_num
    have hL52 : floorLog2 (n * 134217728 / 100000000) ≤ 52 := by
      apply log2fuel_le
      exact hm
    unfold scaled8
    rw [if_neg (by omega), if_pos (by omega)]
    generalize hLdef : floorLog2 (n * 134217728 / 100000000) = L
      at hL52 ⊢
    generalize hsdef : 79 - L = s
    have hs27 : 27 ≤ s := by omega
    have hb : 0 < 2 ^ s := Nat.pos_pow_of_pos s (by norm_num)
    have hble : 100000000 < 2 ^ s := by
      calc (100000000 : Nat) < 2 ^ 27 := by norm_num
        _ ≤ 2 ^ s := Nat.pow_le_pow_right (by norm_num) hs27
    obtain ⟨hc1, hc2⟩ := rheN_close (n * 2 ^ s) 100000000 (by norm_num)
    apply rheN_eq_of_close _ _ _ hb
    · generalize hP : n * 2 ^ s = P at hc1 ⊢
      generalize hX : rheN P 100000000 * 100000000 = X at hc1 ⊢
      generalize hB : 2 ^ s = B at hble ⊢
      omega
    · generalize hP : n * 2 ^ s = P at hc2 ⊢
      generalize hX : rheN P 100000000 * 100000000 = X at hc2 ⊢
      generalize hB : 2 ^ s = B at hble ⊢
      omega

theorem format_eq_truncate_of_scaled (n : Nat) (h : scaled8 n = n) :
    format_balance n = truncate6 n := by
  unfold format_balance truncate6 render8
  rw [h]
  rw [show (8 : Nat) = 6 + 2 from rfl, padDigits_split]
  rw [show ∀ (l x : List Char) (a b : Char),
        l ++ Char.ofNat 46 :: (x ++ [a, b])
          = (l ++ Char.ofNat 46 :: x) ++ [a, b] from
      fun l x a b => by simp]
  rw [dropLast_dropLast_append_pair]

/-- C5 as stated fails on the code: `format_balance` divides in
binary64 floating point before formatting, and at
`6711000000000199` smallest units the double rounding makes `:.8f`
print `"67110000.00000200"`, so the code yields `"67110000.000002"`
where truncation of the true value to 6 decimal digits is
`"67110000.000001"`. -/
theorem C5_float_rounding_counterexample :
    format_balance 6711000000000199 = "67110000.000002"
      ∧ truncate6 6711000000000199 = "67110000.000001"
      ∧ format_balance 6711000000000199 ≠ truncate6 6711000000000199 :=
  ⟨rfl, rfl, by decide⟩

/-- C5 (amended): for every non-negative smallest-unit integer amount
below `2^26 · 10^8 = 6710886400000000` (≈ 67.1 million display units),
balance formatting — float-divide by `10^8`, render 8 fractional
digits, drop the last 2 characters — yields the value truncated (not
rounded) to 6 decimal digits; in particular `123456789012` formats to
`"1234.567890"`, and boundary values with trailing zeros and
sub-truncation residues truncate rather than round.  Above that bound
the double rounding can change the retained digits. -/
theorem C5_format_balance_truncates_small :
    (∀ n : Nat, n < 6710886400000000 → format_balance n = truncate6 n)
      ∧ format_balance 123456789012 = "1234.567890"
      ∧ format_balance 100000000 = "1.000000"
      ∧ format_balance 99 = "0.000000"
      ∧ format_balance 123456999999 = "1234.569999" := by
  refine ⟨?_, by decide, by decide, by decide, by decide⟩
  intro n hn
  exact format_eq_truncate_of_scaled n (scaled8_eq_of_small n hn)

/-- Witness for the amended C5 at the spec's concrete value. -/
theorem C5_format_balance_truncates_small_witness :
    (123456789012 : Nat) < 6710886400000000
      ∧ format_balance 123456789012 = truncate6 123456789012 :=
  ⟨by decide,
    C5_format_balance_truncates_small.1 123456789012 (by decide)⟩

theorem tick_of_unchanged (ft : Nat → String) (usd : String → String)
    (chat_id : Nat) (w : String) (countResp : Option Nat)
    (txResp : Option (List Transaction)) (st : BotState)
    (hd : detect st w (get_transaction_count countResp) = .unchanged) :
    check_transactions ft usd chat_id w countResp txResp st
      = (⟨st.last_transactions,
          updateMap st.last_transaction_counts w
            (get_transaction_count countResp)⟩, []) := by
  unfold check_transactions
  rw [hd]

theorem detect_of_eq (st : BotState) (w : String) (n : Nat)
    (h : st.last_transaction_counts w = some n) :
    detect st w n = .unchanged := by
  unfold detect
  rw [h]
  simp

theorem detect_of_ne (st : BotState) (w : String) (n k : Nat)
    (h : st.last_transaction_counts w = some n) (hne : k ≠ n) :
    detect st w k = .changed n k := by
  unfold detect
  rw [h]
  simp [hne]

theorem tick_of_changed_nil (ft : Nat → String) (usd : String → String)
    (chat_id : Nat) (w : String) (countResp : Option Nat)
    (txResp : Option (List Transaction)) (st : BotState) (p c : Nat)
    (hd : detect st w (get_transaction_count countResp) = .changed p c)
    (hnil : (get_wallet_transactions txResp).take 1 = []) :
    check_transactions ft usd chat_id w countResp txResp st
      = (⟨st.last_transactions,
          updateMap st.last_transaction_counts w
            (get_transaction_count countResp)⟩, []) := by
  unfold check_transactions
  rw [hd, hnil]

theorem tick_of_changed_cons (ft : Nat → String) (usd : String → String)
    (chat_id : Nat) (w : String) (countResp : Option Nat)
    (txResp : Option (List Transaction)) (st : BotState) (p c : Nat)
    (t : Transaction) (r : List Transaction)
    (hd : detect st w (get_transaction_count countResp) = .changed p c)
    (hcons : (get_wallet_transactions txResp).take 1 = t :: r) :
    check_transactions ft usd chat_id w countResp txResp st
      = (⟨updateMap st.last_transactions w (get_wallet_transactions txResp),
          updateMap st.last_transaction_counts w
            (get_transaction_count countResp)⟩,
         [(chat_id, "New transaction detected:\n"
            ++ format_transactions ft usd (t :: r))]) := by
  unfold check_transactions
  rw [hd, hcons]

/-- C3: with a stored baseline `N`, `detect` returns `Unchanged`
exactly when the fetched count equals `N` and `Changed N K` exactly
when it differs (increase or decrease alike); after a tick that
rebaselines to `M ≠ N`, `detect` with `M` is `Unchanged` and `detect`
with any `K ≠ M` is `Changed M K`. -/
theorem C3_detect_policy (st : BotState) (w : String) (N : Nat)
    (h : st.last_transaction_counts w = some N) :
    (∀ K : Nat, (detect st w K = .unchanged ↔ K = N)
        ∧ (detect st w K = .changed N K ↔ K ≠ N))
      ∧ ∀ (M : Nat) (ft : Nat → String) (usd : String → String)
          (chat_id : Nat) (txResp : Option (List Transaction)),
          M ≠ N →
          (detect ((check_transactions ft usd chat_id w (some M) txResp
              st).1) w M = .unchanged
            ∧ ∀ K : Nat, K ≠ M →
                detect ((check_transactions ft usd chat_id w (some M)
                  txResp st).1) w K = .changed M K) := by
  constructor
  · intro K
    constructor
    · constructor
      · intro hu
        by_contra hne
        rw [detect_of_ne st w N K h hne] at hu
        exact DetectResult.noConfusion hu
      · intro he
        rw [he]
        exact detect_of_eq st w N h
    · constructor
      · intro hc hK
        rw [hK, detect_of_eq st w N h] at hc
        exact DetectResult.noConfusion hc
      · intro hne
        exact detect_of_ne st w N K h hne
  · intro M ft usd chat_id txResp _
    have hc : ((check_transactions ft usd chat_id w (some M) txResp
        st).1).last_transaction_counts w = some M :=
      counts_after_tick ft usd chat_id w (some M) txResp st
    exact ⟨detect_of_eq _ w M hc, fun K hK => detect_of_ne _ w M K hc hK⟩

/-- Witness for C3 at a concrete state: baseline 5 for `kaspa:abc`;
a fetched count of 7 is detected as `Changed 5 7`. -/
theorem C3_detect_policy_witness :
    st0.last_transaction_counts ("kaspa:abc") = some 5
      ∧ detect st0 ("kaspa:abc") 7 = .changed 5 7 :=
  ⟨rfl, ((C3_detect_policy st0 ("kaspa:abc") 5 rfl).1 7).2.mpr (by decide)⟩

/-- C10: a tick on an address with no stored baseline count never
dispatches a notification, whatever the fetched count; it only seeds
`last_transaction_counts` with the fetched value, leaving
`last_transactions` and every other address's baseline unchanged. -/
theorem C10_no_baseline_never_notifies (ft : Nat → String)
    (usd : String → String) (chat_id : Nat) (w : String)
    (countResp : Option Nat) (txResp : Option (List Transaction))
    (st : BotState) (h : st.last_transaction_counts w = none) :
    (check_transactions ft usd chat_id w countResp txResp st).2 = []
      ∧ ((check_transactions ft usd chat_id w countResp txResp
          st).1).last_transactions = st.last_transactions
      ∧ ((check_transactions ft usd chat_id w countResp txResp
          st).1).last_transaction_counts w
          = some (get_transaction_count countResp)
      ∧ ∀ a : String, a ≠ w →
          ((check_transactions ft usd chat_id w countResp txResp
            st).1).last_transaction_counts a
            = st.last_transaction_counts a := by
  have hd : detect st w (get_transaction_count countResp) = .unchanged := by
    unfold detect
    rw [h]
  rw [tick_of_unchanged ft usd chat_id w countResp txResp st hd]
  exact ⟨rfl, rfl, updateMap_same _ _ _,
    fun a ha => updateMap_other _ _ _ a ha⟩

/-- Witness for C10: fresh in-memory state, fetched count 7 with a
nonempty transaction fetch — nothing is sent. -/
theorem C10_no_baseline_never_notifies_witness :
    stEmpty.last_transaction_counts ("kaspa:abc") = none
      ∧ (check_transactions ft0 usd0 1 ("kaspa:abc") (some 7)
          (some [tx1]) stEmpty).2 = [] :=
  ⟨rfl, (C10_no_baseline_never_notifies ft0 usd0 1 ("kaspa:abc") (some 7)
      (some [tx1]) stEmpty rfl).1⟩

/-- C8: a tick whose fetched count equals the stored baseline (the
Unchanged case) stores the fetched value as the baseline and changes
nothing else: no message is sent, `last_transactions`, the other
addresses' baselines, the wallets table and the job queue are all
untouched, and the tick's outcome does not depend on the
transactions fetch at all. -/
theorem C8_unchanged_tick_frame (ft : Nat → String)
    (usd : String → String) (chat_id : Nat) (w : String) (n : Nat)
    (txResp : Option (List Transaction)) (st : FullState)
    (h : st.bot.last_transaction_counts w = some n) :
    (tick ft usd chat_id w (some n) txResp st).2 = []
      ∧ ((tick ft usd chat_id w (some n) txResp st).1).db = st.db
      ∧ ((tick ft usd chat_id w (some n) txResp st).1).jobs = st.jobs
      ∧ ((tick ft usd chat_id w (some n) txResp
          st).1).bot.last_transactions = st.bot.last_transactions
      ∧ ((tick ft usd chat_id w (some n) txResp
          st).1).bot.last_transaction_counts w = some n
      ∧ (∀ a : String, a ≠ w →
          ((tick ft usd chat_id w (some n) txResp
            st).1).bot.last_transaction_counts a
            = st.bot.last_transaction_counts a)
      ∧ ∀ txResp2 : Option (List Transaction),
          tick ft usd chat_id w (some n) txResp2 st
            = tick ft usd chat_id w (some n) txResp st := by
  have hd : detect st.bot w (get_transaction_count (some n))
      = .unchanged := detect_of_eq st.bot w n h
  have hr : ∀ txR : Option (List Transaction),
      tick ft usd chat_id w (some n) txR st
        = (⟨st.db, st.jobs, ⟨st.bot.last_transactions,
            updateMap st.bot.last_transaction_counts w n⟩⟩, []) := by
    intro txR
    unfold tick
    rw [tick_of_unchanged ft usd chat_id w (some n) txR st.bot hd]
    rfl
  rw [hr txResp]
  exact ⟨rfl, rfl, rfl, rfl, updateMap_same _ _ _,
    fun a ha => updateMap_other _ _ _ a ha,
    fun txResp2 => by rw [hr txResp2]⟩

/-- Witness for C8: baseline 5 for `kaspa:abc`, fetched count 5 —
no message is sent. -/
theorem C8_unchanged_tick_frame_witness :
    (⟨[(1, "kaspa:abc")], [(1, "kaspa:abc")],
        st0⟩ : FullState).bot.last_transaction_counts ("kaspa:abc")
        = some 5
      ∧ (tick ft0 usd0 1 ("kaspa:abc") (some 5) (some [tx1])
          ⟨[(1, "kaspa:abc")], [(1, "kaspa:abc")], st0⟩).2 = [] :=
  ⟨rfl, (C8_unchanged_tick_frame ft0 usd0 1 ("kaspa:abc") 5
      (some [tx1]) ⟨[(1, "kaspa:abc")], [(1, "kaspa:abc")], st0⟩ rfl).1⟩

/-- C9: a tick that detects a count change but whose transactions
fetch comes back empty sends nothing and leaves `last_transactions`
alone, yet still advances the stored baseline to the new count — so a
later tick that fetches the same count detects nothing and the change
is never notified. -/
theorem C9_changed_empty_fetch_loses_notification (ft : Nat → String)
    (usd : String → String) (chat_id : Nat) (w : String) (n k : Nat)
    (txResp : Option (List Transaction)) (st : BotState)
    (hbase : st.last_transaction_counts w = some n) (hne : k ≠ n)
    (hempty : get_wallet_transactions txResp = []) :
    (check_transactions ft usd chat_id w (some k) txResp st).2 = []
      ∧ ((check_transactions ft usd chat_id w (some k) txResp
          st).1).last_transactions = st.last_transactions
      ∧ ((check_transactions ft usd chat_id w (some k) txResp
          st).1).last_transaction_counts w = some k
      ∧ ∀ (ft2 : Nat → String) (usd2 : String → String) (chat2 : Nat)
          (txResp2 : Option (List Transaction)),
          (check_transactions ft2 usd2 chat2 w (some k) txResp2
            ((check_transactions ft usd chat_id w (some k) txResp
              st).1)).2 = [] := by
  have hd : detect st w (get_transaction_count (some k))
      = .changed n k := detect_of_ne st w n k hbase hne
  have hnil : (get_wallet_transactions txResp).take 1 = [] := by
    rw [hempty]
    rfl
  rw [tick_of_changed_nil ft usd chat_id w (some k) txResp st n k hd hnil]
  refine ⟨rfl, rfl, updateMap_same _ _ _, ?_⟩
  intro ft2 usd2 chat2 txResp2
  have hd2 : detect (⟨st.last_transactions,
      updateMap st.last_transaction_counts w
        (get_transaction_count (some k))⟩ : BotState) w
      (get_transaction_count (some k)) = .unchanged :=
    detect_of_eq _ w (get_transaction_count (some k))
      (updateMap_same _ _ _)
  show (check_transactions ft2 usd2 chat2 w (some k) txResp2
      (⟨st.last_transactions, updateMap st.last_transaction_counts w
        (get_transaction_count (some k))⟩ : BotState)).2 = []
  rw [tick_of_unchanged ft2 usd2 chat2 w (some k) txResp2 _ hd2]

/-- Witness for C9: baseline 5, fetched count 7, empty transactions
fetch — nothing sent now, and a later tick fetching 7 again sends
nothing either. -/
theorem C9_changed_empty_fetch_loses_notification_witness :
    st0.last_transaction_counts ("kaspa:abc") = some 5
      ∧ (7 : Nat) ≠ 5
      ∧ get_wallet_transactions (some ([] : List Transaction)) = []
      ∧ (check_transactions ft0 usd0 1 ("kaspa:abc") (some 7) (some [])
          st0).2 = []
      ∧ (check_transactions ft0 usd0 1 ("kaspa:abc") (some 7) (some [])
          ((check_transactions ft0 usd0 1 ("kaspa:abc") (some 7)
            (some []) st0).1)).2 = [] :=
  ⟨rfl, by decide, rfl,
    (C9_changed_empty_fetch_loses_notification ft0 usd0 1 ("kaspa:abc")
      5 7 (some []) st0 rfl (by decide) rfl).1,
    (C9_changed_empty_fetch_loses_notification ft0 usd0 1 ("kaspa:abc")
      5 7 (some []) st0 rfl (by decide) rfl).2.2.2 ft0 usd0 1 (some [])⟩

theorem format_single (ft : Nat → String) (usd : String → String)
    (t : Transaction) :
    format_transactions ft usd [t]
      = Nat.repr 1 ++ ". Transaction ID: " ++ t.transaction_id
        ++ "\n   Amount: " ++ format_balance t.outputs.sum
        ++ " KAS (~$" ++ usd (format_balance t.outputs.sum)
        ++ ")\n   Time: " ++ ft t.block_time ++ "\n\n" := by
  show renderTx ft usd 0 t ++ format_transactions_from ft usd 1 [] = _
  show renderTx ft usd 0 t ++ "" = _
  rw [String.append_empty]
  rfl

/-- C4 as stated fails on the code: a tick whose detected result is
`Changed` (baseline 5, fetched count 6) but whose transactions fetch
comes back empty dispatches no notification at all and does not touch
`last_known_transactions` — not "exactly one notification" with both
fields updated. -/
theorem C4_counterexample :
    detect st0 ("kaspa:abc") (get_transaction_count (some 6))
        = .changed 5 6
      ∧ (check_transactions ft0 usd0 1 ("kaspa:abc") (some 6) (some [])
          st0).2 = []
      ∧ ((check_transactions ft0 usd0 1 ("kaspa:abc") (some 6) (some [])
          st0).1).last_transactions ("kaspa:abc") = none :=
  ⟨rfl, rfl, rfl⟩

/-- C4 (amended): for every tick whose detected result is `Changed`
and whose fetch of recent transactions returns a nonempty sequence,
the scheduler formats only the single most-recent transaction,
dispatches exactly one notification — to the single chat stored in the
tick's job — whose text contains that transaction's id and formatted
amount, and updates both `last_known_transaction_count` and
`last_known_transactions`. -/
theorem C4_changed_tick_notifies (ft : Nat → String)
    (usd : String → String) (chat_id : Nat) (w : String) (n k : Nat)
    (t : Transaction) (rest : List Transaction)
    (txResp : Option (List Transaction)) (st : BotState)
    (hbase : st.last_transaction_counts w = some n) (hne : k ≠ n)
    (htx : get_wallet_transactions txResp = t :: rest) :
    (check_transactions ft usd chat_id w (some k) txResp st).2
        = [(chat_id, "New transaction detected:\n"
            ++ format_transactions ft usd [t])]
      ∧ (∃ s1 s2 s3 : String,
          "New transaction detected:\n" ++ format_transactions ft usd [t]
            = s1 ++ t.transaction_id ++ s2
              ++ format_balance t.outputs.sum ++ s3)
      ∧ ((check_transactions ft usd chat_id w (some k) txResp
          st).1).last_transaction_counts w = some k
      ∧ ((check_transactions ft usd chat_id w (some k) txResp
          st).1).last_transactions w = some (t :: rest) := by
  have hd : detect st w (get_transaction_count (some k))
      = .changed n k := detect_of_ne st w n k hbase hne
  have htake : (get_wallet_transactions txResp).take 1 = t :: [] := by
    rw [htx]
    rfl
  rw [tick_of_changed_cons ft usd chat_id w (some k) txResp st n k t []
    hd htake]
  refine ⟨rfl, ?_, updateMap_same _ _ _, ?_⟩
  · refine ⟨"New transaction detected:\n"
        ++ (Nat.repr 1 ++ ". Transaction ID: "), "\n   Amount: ",
      " KAS (~$" ++ usd (format_balance t.outputs.sum)
        ++ ")\n   Time: " ++ ft t.block_time ++ "\n\n", ?_⟩
    rw [format_single]
    simp [String.append_assoc]
  · show updateMap st.last_transactions w (get_wallet_transactions
        txResp) w = some (t :: rest)
    rw [updateMap_same, htx]

/-- Witness for the amended C4: baseline 5, fetched count 6, the fetch
returns `[tx1]`; exactly one message goes to chat 1 and both stored
fields are updated. -/
theorem C4_changed_tick_notifies_witness :
    st0.last_transaction_counts ("kaspa:abc") = some 5
      ∧ (6 : Nat) ≠ 5
      ∧ get_wallet_transactions (some [tx1]) = [tx1]
      ∧ (check_transactions ft0 usd0 1 ("kaspa:abc") (some 6)
          (some [tx1]) st0).2
          = [(1, "New transaction detected:\n"
              ++ format_transactions ft0 usd0 [tx1])]
      ∧ ((check_transactions ft0 usd0 1 ("kaspa:abc") (some 6)
          (some [tx1]) st0).1).last_transaction_counts ("kaspa:abc")
          = some 6
      ∧ ((check_transactions ft0 usd0 1 ("kaspa:abc") (some 6)
          (some [tx1]) st0).1).last_transactions ("kaspa:abc")
          = some [tx1] :=
  ⟨rfl, by decide, rfl,
    (C4_changed_tick_notifies ft0 usd0 1 ("kaspa:abc") 5 6 tx1 []
      (some [tx1]) st0 rfl (by decide) rfl).1,
    (C4_changed_tick_notifies ft0 usd0 1 ("kaspa:abc") 5 6 tx1 []
      (some [tx1]) st0 rfl (by decide) rfl).2.2.1,
    (C4_changed_tick_notifies ft0 usd0 1 ("kaspa:abc") 5 6 tx1 []
      (some [tx1]) st0 rfl (by decide) rfl).2.2.2⟩

theorem list_wallets_append (db1 db2 : DB) (u : Nat) :
    list_wallets (db1 ++ db2) u
      = list_wallets db1 u ++ list_wallets db2 u := by
  simp [list_wallets]

theorem not_mem_list_wallets (db : DB) (u : Nat) (a : String)
    (h : (u, a) ∉ db) : a ∉ list_wallets db u := by
  intro hmem
  unfold list_wallets at hmem
  rcases List.mem_map.mp hmem with ⟨r, hr, hra⟩
  rcases List.mem_filter.mp hr with ⟨hrdb, hru⟩
  apply h
  have hr1 : r.1 = u := by simpa using hru
  have : r = (u, a) := by
    cases r
    simp only at hr1 hra
    rw [hr1, hra]
  rw [this] at hrdb
  exact hrdb

/-- C6: `add` is idempotent: on a pair not yet stored, the first `add`
returns `Added` and inserts the row, a second `add` of the same pair
returns `AlreadyExists` and changes nothing, and the user's wallet list
afterwards contains the address exactly once. -/
theorem C6_add_idempotent (db : DB) (u : Nat) (a : String)
    (h : (u, a) ∉ db) :
    (add db u a).1 = .added
      ∧ (add (add db u a).2 u a).1 = .alreadyExists
      ∧ (add (add db u a).2 u a).2 = (add db u a).2
      ∧ (list_wallets (add (add db u a).2 u a).2 u).count a = 1 := by
  have hadd : add db u a = (.added, db ++ [(u, a)]) := by
    unfold add
    rw [if_neg h]
  have hmem2 : (u, a) ∈ db ++ [(u, a)] := by simp
  have hadd2 : add (db ++ [(u, a)]) u a
      = (.alreadyExists, db ++ [(u, a)]) := by
    unfold add
    rw [if_pos hmem2]
  refine ⟨by rw [hadd], by rw [hadd, hadd2], by rw [hadd, hadd2], ?_⟩
  rw [hadd, hadd2]
  show (list_wallets (db ++ [(u, a)]) u).count a = 1
  rw [list_wallets_append, List.count_append]
  have h0 : (list_wallets db u).count a = 0 :=
    List.count_eq_zero.mpr (not_mem_list_wallets db u a h)
  have h1 : (list_wallets [(u, a)] u).count a = 1 := by
    simp [list_wallets]
  rw [h0, h1]

/-- Witness for C6 on a concrete table already holding other rows. -/
theorem C6_add_idempotent_witness :
    ((1, "kaspa:abc") ∉ ([(2, "kaspa:abc"), (1, "kaspa:xyz")] : DB))
      ∧ (list_wallets
          (add (add [(2, "kaspa:abc"), (1, "kaspa:xyz")] 1
            ("kaspa:abc")).2 1 ("kaspa:abc")).2 1).count ("kaspa:abc")
          = 1 :=
  ⟨by decide,
    (C6_add_idempotent [(2, "kaspa:abc"), (1, "kaspa:xyz")] 1
      ("kaspa:abc") (by decide)).2.2.2⟩

/-- C1 fails on the code: `track_wallet` schedules a fresh repeating
job on every successful registration, so when a second user registers
an address that is already monitored the scheduler ends up with two
jobs for that wallet address (each carrying its own single chat), not
one job with a grown recipient set. -/
theorem C1_second_user_spawns_duplicate_job :
    jobsFor (track_wallet (track_wallet initSched 1 1 ("kaspa:abc"))
        2 2 ("kaspa:abc")) ("kaspa:abc")
      = [(1, "kaspa:abc"), (2, "kaspa:abc")]
      ∧ (jobsFor (track_wallet (track_wallet initSched 1 1 ("kaspa:abc"))
          2 2 ("kaspa:abc")) ("kaspa:abc")).length = 2 :=
  ⟨rfl, rfl⟩

/-- C2 fails on the code: `get_transaction_count` maps `Unavailable`
(a non-2xx response) to the sentinel count `0`, so a tick with a failed
count fetch and baseline 5 runs change detection (`Changed 5 0`),
dispatches a notification, and clobbers the stored baseline to `0` —
instead of only logging and retrying with state unchanged. -/
theorem C2_unavailable_tick_not_skipped :
    get_transaction_count none = 0
      ∧ detect st0 ("kaspa:abc") (get_transaction_count none)
          = .changed 5 0
      ∧ ((check_transactions ft0 usd0 1 ("kaspa:abc") none (some [tx1])
          st0).2).length = 1
      ∧ ((check_transactions ft0 usd0 1 ("kaspa:abc") none (some [tx1])
          st0).1).last_transaction_counts ("kaspa:abc") = some 0
      ∧ ((check_transactions ft0 usd0 1 ("kaspa:abc") none (some [tx1])
          st0).1).last_transactions ("kaspa:abc") = some [tx1] :=
  ⟨rfl, rfl, rfl, rfl, rfl⟩

/-- C7 fails on the code: `edit_wallet` runs the UPDATE with no
conflict check and reports success, so editing `addr-a` to `addr-b`
for a user who already tracks `addr-b` produces a duplicate
`(user, addr-b)` row instead of a `Conflict` error. -/
theorem C7_edit_conflict_not_rejected :
    edit_wallet [(1, "addr-a"), (1, "addr-b")] 1 ("addr-a") ("addr-b")
      = [(1, "addr-b"), (1, "addr-b")]
      ∧ (list_wallets (edit_wallet [(1, "addr-a"), (1, "addr-b")] 1
          ("addr-a") ("addr-b")) 1).count ("addr-b") = 2 :=
  ⟨rfl, rfl⟩

end K1
